import Mathlib

/-!
Verification development for the claims risk-decision pipeline of the
lemonade-insurance-platform repository.

The embedding covers the two source files that the properties under study
touch:

* `src/services/fraud-detection/src/models/ensemble.py` — the
  `FraudDetectionEnsemble` class: per-model scoring with fail-open error
  handling (`evaluate`) and the approve/review/reject business logic
  (`make_decision`).
* `src/services/claims-service/src/app.py` — the claims submission
  pipeline (`submit_claim`), the duplicate-claim check
  (`check_duplicate_claim`) and the payout computation
  (`calculate_payout`).

Modelling conventions:
* Python floats are embedded as `ℚ`; all the constants involved
  (0.15, 0.2, 0.3, 0.5, 0.85, 0.9, 0.95, amounts, limits) are exact
  decimals, so no floating-point behaviour is at stake.
* A Python dict whose keys are the fixed provider names is embedded as a
  function `Provider → Option ℚ` (`none` = key absent); `dict.get(k, d)`
  becomes `Option.getD` with the same default.
* A model call that may raise is embedded as an `Option ℚ` result
  (`none` = the call raised).
* Redis, the backing store of the duplicate index, is embedded as a
  function from user id to the list of indexed claims, plus a
  reachability flag: every redis operation in the source is unguarded, so
  an unreachable store surfaces as an exception propagating out of the
  endpoint, embedded as `Except.error .server_error`.
* Timing fields (`processing_time_ms`), free-text `next_steps` messages
  and the kafka analytics events of the source are not observed by any
  property studied here and are left out of the response structure; the
  dispatched background tasks (`process_instant_payout`,
  `route_to_adjuster`) are recorded as an explicit action list.
-/

namespace LemonadePlatform

/-- The eight scoring models registered in `FraudDetectionEnsemble.__init__`
(ensemble.py lines 19-28). -/
inductive Provider where
  | behavioral_biometrics
  | device_fingerprint
  | velocity_checks
  | identity_graph
  | claim_pattern
  | network_analysis
  | video_analysis
  | text_sentiment
deriving DecidableEq, Repr

/-- The registry order of `self.models` (ensemble.py lines 19-28). -/
def registered_models : List Provider :=
  [.behavioral_biometrics, .device_fingerprint, .velocity_checks,
   .identity_graph, .claim_pattern, .network_analysis, .video_analysis,
   .text_sentiment]

/-- The three outcomes of `FraudDetectionEnsemble.make_decision`
(ensemble.py lines 88, 94, 97). -/
inductive Decision where
  | instant_approve
  | reject
  | review
deriving DecidableEq, Repr

/-- A score vector as `make_decision` receives it: a mapping from provider
name to score, where a name may be absent (Python dict; `dict.get` defaults
apply). -/
def ScoreVector : Type := Provider → Option ℚ

/-- Embeds `model_scores.get(name, default)` (ensemble.py lines 86-87, 92-93). -/
def getScore (model_scores : ScoreVector) (name : Provider) (default : ℚ) : ℚ :=
  (model_scores name).getD default

/-- Embeds `FraudDetectionEnsemble.make_decision` (ensemble.py lines 74-97):
approve criteria are tested first (risk score < 0.15, no anomaly,
behavioral-biometrics score defaulting to 1 below 0.2, device-fingerprint
score defaulting to 1 below 0.3); only if they fail are the reject criteria
tested (risk score > 0.85, or identity-graph score defaulting to 0 above
0.9, or network-analysis score defaulting to 0 above 0.95); everything else
is manual review. -/
def make_decision (risk_score : ℚ) (is_anomaly : Bool)
    (model_scores : ScoreVector) : Decision :=
  if risk_score < 15/100 ∧ is_anomaly = false ∧
      getScore model_scores .behavioral_biometrics 1 < 2/10 ∧
      getScore model_scores .device_fingerprint 1 < 3/10 then
    .instant_approve
  else if risk_score > 85/100 ∨
      getScore model_scores .identity_graph 0 > 9/10 ∨
      getScore model_scores .network_analysis 0 > 95/100 then
    .reject
  else
    .review

/-- Point update of a score vector (used to state what a missing entry is
equivalent to). -/
def setScore (model_scores : ScoreVector) (name : Provider) (v : Option ℚ) :
    ScoreVector :=
  fun n => if n = name then v else model_scores n

/-- The score vector with every provider entry absent. -/
def empty_scores : ScoreVector := fun _ => none

/-- The fail-open neutral score of ensemble.py line 52. -/
def neutral_score : ℚ := 1/2

/-- The per-model loop of `FraudDetectionEnsemble.evaluate` (ensemble.py
lines 44-52): each registered model's `predict_proba` call either returns a
score or raises; a raising model contributes the bare neutral value 0.5 to
the `model_scores` dict. `results name` is the outcome of model `name` on
this claim's features (`none` = the call raised). -/
def model_scores_list (results : Provider → Option ℚ) : List (Provider × ℚ) :=
  registered_models.map (fun name => (name, (results name).getD neutral_score))

/-- Dict lookup in the `model_scores` dict built by the evaluate loop. -/
def lookupScore (scores : List (Provider × ℚ)) : ScoreVector :=
  fun n => (scores.find? (fun p => p.1 == n)).map (fun p => p.2)

/-- Modelled from the spec: `calculate_confidence` is called at ensemble.py
line 67 but its body is nowhere in the source. Spec §4.3 step 4 requires
confidence to "be lower when fewer providers actually contributed (i.e.,
when providers returned unavailable)". At the call site only the untagged
`model_scores` dict is available, in which an unavailable provider holds
exactly the neutral score 0.5, so "contributed" is modelled as holding a
non-neutral score: confidence is the fraction of providers whose entry is
not the neutral score. -/
def calculate_confidence (scores : List (Provider × ℚ)) : ℚ :=
  ((scores.filter (fun p => decide (p.2 ≠ neutral_score))).length : ℚ) /
    (scores.length : ℚ)

/-- The result dict of `FraudDetectionEnsemble.evaluate` (ensemble.py lines
64-72). `risk_level` and `review_reasons` are derived by `score_to_level`
and `get_review_reasons`, both absent from the source and observed by no
property here, so they are not carried. -/
structure EvalResult where
  risk_score : ℚ
  confidence : ℚ
  is_anomaly : Bool
  model_breakdown : List (Provider × ℚ)
  decision : Decision
deriving DecidableEq, Repr

/-- Embeds `FraudDetectionEnsemble.evaluate` (ensemble.py lines 36-72). The
learned combiners are opaque model weights, so they enter as parameters:
`meta` embeds `self.meta_classifier.predict_proba` (line 56) and `anomaly`
embeds the `self.anomaly_detector.predict == -1` check (line 59); both are
functions of the ensemble feature vector, i.e. of the model-score list. -/
def evaluate (meta : List (Provider × ℚ) → ℚ)
    (anomaly : List (Provider × ℚ) → Bool)
    (results : Provider → Option ℚ) : EvalResult :=
  let model_scores := model_scores_list results
  let final_risk_score := meta model_scores
  let is_anomaly := anomaly model_scores
  { risk_score := final_risk_score
    confidence := calculate_confidence model_scores
    is_anomaly := is_anomaly
    model_breakdown := model_scores
    decision := make_decision final_risk_score is_anomaly
      (lookupScore model_scores) }

/-- Restriction of a full outcome function to a failure set: provider `p`
raises exactly when `failed p`, and otherwise returns its genuine score
`m p`. Used to compare two evaluations of the same claim that differ only
in which providers were unavailable. -/
def apply_failures (m : Provider → ℚ) (failed : Provider → Bool) :
    Provider → Option ℚ :=
  fun p => if failed p then none else some (m p)

/-! ## Claims service (src/services/claims-service/src/app.py) -/

/-- The closed claim-type enumeration of `ClaimRequest.claim_type`
(app.py line 32). -/
inductive ClaimType where
  | theft
  | water_damage
  | fire
  | liability
  | medical
deriving DecidableEq, Repr

/-- Embeds `ClaimRequest` (app.py lines 28-51). `incident_date` is carried as an
integer timestamp; photo/video evidence references are observed by no
property here and are left out. -/
structure ClaimRequest where
  claim_id : String
  policy_id : String
  user_id : String
  claim_type : ClaimType
  incident_date : Int
  description : String
  estimated_amount : ℚ
  location : ℚ × ℚ
deriving DecidableEq, Repr

/-- The policy snapshot returned by `validate_policy` and read by
`calculate_payout` (app.py lines 170-176): `coverage_limits` is a dict
keyed by claim type (`none` = key absent, `dict.get` default 0 applies). -/
structure Policy where
  status : String
  coverage_limits : ClaimType → Option ℚ
  deductible : ℚ

/-- Embeds `calculate_payout` (app.py lines 170-176):
`min(estimated_amount, coverage_limits.get(claim_type, 0)) - deductible`,
floored at zero. -/
def calculate_payout (claim : ClaimRequest) (policy : Policy) : ℚ :=
  let coverage_limit := (policy.coverage_limits claim.claim_type).getD 0
  let deductible := policy.deductible
  let payout := min claim.estimated_amount coverage_limit - deductible
  max payout 0

/-- The duplicate index that redis holds: the per-user sets
`user_claims:{user_id}:30d` (app.py line 155). The key's contents are the
non-expired entries (redis drops the whole key at its TTL). -/
def DupStore : Type := String → List ClaimRequest

/-- The `redis_client.smembers` read of the claimant's set
(app.py line 156). -/
def dup_check_read (store : DupStore) (user_id : String) : List ClaimRequest :=
  store user_id

/-- The scan loop of `check_duplicate_claim` (app.py lines 158-162): walk
the retrieved entries and return the first similarity exceeding 0.85, if
any. `sim` embeds `calculate_similarity`, which is called at line 160 but
is nowhere in the source; every property here treats it as an opaque
function of the two claims. -/
def find_similar (sim : ClaimRequest → ClaimRequest → ℚ)
    (claim : ClaimRequest) : List ClaimRequest → Option ℚ
  | [] => none
  | r :: rest =>
    if sim claim r > 85/100 then some (sim claim r)
    else find_similar sim claim rest

/-- The `redis_client.sadd` registration of a non-duplicate claim
(app.py line 165). -/
def dup_insert (store : DupStore) (claim : ClaimRequest) : DupStore :=
  fun u => if u = claim.user_id then store u ++ [claim] else store u

/-- The dict returned by `check_duplicate_claim` (app.py lines 162, 168):
`similarity` is present only in the duplicate case. -/
structure DupResult where
  is_duplicate : Bool
  similarity : Option ℚ
deriving DecidableEq, Repr

/-- How a submission fails: `client_error` is the HTTP 400
`HTTPException` raised for an invalid or inactive policy (app.py line 76);
`server_error` is an unhandled exception escaping the endpoint (the
framework turns it into an HTTP 500), which is what an unguarded redis
call raises when the store is unreachable — no line of
`check_duplicate_claim` or `submit_claim` catches it. -/
inductive PipelineError where
  | client_error
  | server_error
deriving DecidableEq, Repr

/-- Embeds `check_duplicate_claim` (app.py lines 150-168): read the claimant's
non-expired entries, scan them for a similarity exceeding 0.85; on a match
report a duplicate and leave the store unchanged, otherwise register the
claim and report a non-duplicate. `store_up = false` models an unreachable
backing store: the very first redis call raises and nothing handles it. -/
def check_duplicate_claim (store_up : Bool)
    (sim : ClaimRequest → ClaimRequest → ℚ) (store : DupStore)
    (claim : ClaimRequest) : Except PipelineError (DupResult × DupStore) :=
  if store_up = false then .error .server_error
  else
    let recent := dup_check_read store claim.user_id
    match find_similar sim claim recent with
    | some s => .ok ({ is_duplicate := true, similarity := some s }, store)
    | none =>
      .ok ({ is_duplicate := false, similarity := none }, dup_insert store claim)

/-- The `risk_level` values of the fraud-detection response consumed at
app.py line 93. -/
inductive RiskLevel where
  | low
  | medium
  | high
deriving DecidableEq, Repr

/-- The fields of the fraud-detection response that `submit_claim` reads
(app.py lines 93-95, 108, 117, 128). -/
structure FraudScore where
  score : ℚ
  risk_level : RiskLevel
  confidence : ℚ
deriving DecidableEq, Repr

/-- The `status` values `submit_claim` actually produces
(app.py lines 83, 114, 126). -/
inductive Status where
  | instant_approved
  | under_review
  | flagged
deriving DecidableEq, Repr

/-- The background tasks `submit_claim` dispatches: the instant-payout
transfer (app.py line 102) and the adjuster routing (app.py line 122). -/
inductive Action where
  | process_instant_payout (claim_id : String) (amount : ℚ)
  | route_to_adjuster (claim_id : String)
deriving DecidableEq, Repr

/-- The `ClaimResponse` fields observed here (app.py lines 53-59), minus
the timing and free-text message fields. -/
structure ClaimResponse where
  claim_id : String
  status : Status
  payout_amount : Option ℚ
  confidence_score : ℚ
deriving DecidableEq, Repr

/-- The collaborators `submit_claim` calls out to. `policy_lookup` embeds
`validate_policy` (policy service behind a cache, app.py lines 132-148);
`fraud_eval` embeds the `fraud_detection.evaluate` client call (app.py
line 90); `sim` embeds the absent `calculate_similarity`; `store_up` is the
reachability of the duplicate-index store. -/
structure Env where
  policy_lookup : String → Option Policy
  fraud_eval : ClaimRequest → FraudScore
  sim : ClaimRequest → ClaimRequest → ℚ
  store_up : Bool

/-- The string the policy status is compared against (app.py line 75). -/
def active_status : String := "active"

/-- Embeds `submit_claim` (app.py lines 61-130), as a function of the environment
and the duplicate-store state, returning the response, the new store state
and the list of dispatched background actions — or the propagated error.
Steps, in source order: policy validation (invalid/inactive → HTTP 400);
duplicate check (duplicate → `flagged`, confidence 0, no action); fraud
scoring; the instant-approval test (`risk_level == low` and
`estimated_amount < 5000` and `confidence > 0.85` and claim type theft or
water_damage) → payout computation, payout task, `instant_approved`;
otherwise adjuster routing and `under_review`. There is no idempotency
ledger anywhere in the source: no step keys on `claim_id`. -/
def submit_claim (env : Env) (store : DupStore) (claim : ClaimRequest) :
    Except PipelineError (ClaimResponse × DupStore × List Action) :=
  match env.policy_lookup claim.policy_id with
  | none => .error .client_error
  | some policy =>
    if policy.status ≠ active_status then .error .client_error
    else
      match check_duplicate_claim env.store_up env.sim store claim with
      | .error e => .error e
      | .ok (dup, store1) =>
        if dup.is_duplicate then
          .ok ({ claim_id := claim.claim_id, status := .flagged,
                 payout_amount := none, confidence_score := 0 },
               store1, [])
        else
          let fraud_score := env.fraud_eval claim
          if fraud_score.risk_level = RiskLevel.low ∧
              claim.estimated_amount < 5000 ∧
              fraud_score.confidence > 85/100 ∧
              (claim.claim_type = ClaimType.theft ∨
               claim.claim_type = ClaimType.water_damage) then
            let payout_amount := calculate_payout claim policy
            .ok ({ claim_id := claim.claim_id, status := .instant_approved,
                   payout_amount := some payout_amount,
                   confidence_score := fraud_score.confidence },
                 store1,
                 [Action.process_instant_payout claim.claim_id payout_amount])
          else
            .ok ({ claim_id := claim.claim_id, status := .under_review,
                   payout_amount := none,
                   confidence_score := fraud_score.confidence },
                 store1, [Action.route_to_adjuster claim.claim_id])

/-- Two submissions from the same claimant with their store operations
interleaved read-read-write-write: `check_duplicate_claim` issues its
`smembers` read and its `sadd` write as two separate, unsynchronised redis
commands, so this schedule is admissible; both submissions take their
snapshot before either write lands. Returns the two `is_duplicate`
verdicts and the final store. -/
def interleaved_rrww (sim : ClaimRequest → ClaimRequest → ℚ)
    (store : DupStore) (c1 c2 : ClaimRequest) : (Bool × Bool) × DupStore :=
  let snap1 := dup_check_read store c1.user_id
  let snap2 := dup_check_read store c2.user_id
  let d1 := (find_similar sim c1 snap1).isSome
  let d2 := (find_similar sim c2 snap2).isSome
  let store1 := if d1 then store else dup_insert store c1
  let store2 := if d2 then store1 else dup_insert store1 c2
  ((d1, d2), store2)

/-- The same two submissions run one after the other (read-write then
read-write), for comparison: the second snapshot sees the first write. -/
def sequential_runs (sim : ClaimRequest → ClaimRequest → ℚ)
    (store : DupStore) (c1 c2 : ClaimRequest) : (Bool × Bool) × DupStore :=
  let snap1 := dup_check_read store c1.user_id
  let d1 := (find_similar sim c1 snap1).isSome
  let store1 := if d1 then store else dup_insert store c1
  let snap2 := dup_check_read store1 c2.user_id
  let d2 := (find_similar sim c2 snap2).isSome
  let store2 := if d2 then store1 else dup_insert store1 c2
  ((d1, d2), store2)

/-- Two submissions run back to back against the same environment, the
second starting from the store state the first produced; the dispatched
actions of both runs are concatenated. Used to examine client retries. -/
def run_two (env : Env) (store : DupStore) (ca cb : ClaimRequest) :
    Except PipelineError (ClaimResponse × ClaimResponse × List Action) :=
  match submit_claim env store ca with
  | .error e => .error e
  | .ok (ra, store1, acts1) =>
    match submit_claim env store1 cb with
    | .error e => .error e
    | .ok (rb, _store2, acts2) => .ok (ra, rb, acts1 ++ acts2)

/-! ## Concrete fixtures

Concrete instantiations of the opaque collaborators (policy service,
similarity function, fraud-scoring client, learned combiners), used by the
counterexamples and witnesses. -/

/-- A claimant id. -/
def u1 : String := "usr_987654321"

/-- A policy id. -/
def pid1 : String := "pol_123456789"

/-- A claim id (the identifier a client would retry with). -/
def cid1 : String := "claim_001"

/-- A second, distinct claim id. -/
def cid2 : String := "claim_002"

/-- A claim description. -/
def desc1 : String := "Pipe burst in kitchen causing floor damage"

/-- A slightly reworded description for a client retry. -/
def desc2 : String := "Burst pipe in the kitchen caused floor damage"

/-- A water-damage claim for 3500 (the worked spec example). -/
def claim1 : ClaimRequest :=
  { claim_id := cid1, policy_id := pid1, user_id := u1,
    claim_type := .water_damage, incident_date := 0, description := desc1,
    estimated_amount := 3500, location := (0, 0) }

/-- The same claim id resubmitted with a reworded description. -/
def claim1_retry : ClaimRequest := { claim1 with description := desc2 }

/-- A small claim for 100 against the same policy. -/
def claim_small : ClaimRequest :=
  { claim1 with claim_id := cid2, estimated_amount := 100 }

/-- A second submission of the same incident under a fresh claim id
(identical description), for the duplicate-race scenario. -/
def claim_dup : ClaimRequest := { claim1 with claim_id := cid2 }

/-- An active policy: water-damage coverage limit 5000, deductible 500. -/
def policy1 : Policy :=
  { status := active_status,
    coverage_limits := fun t => if t = ClaimType.water_damage then some 5000 else none,
    deductible := 500 }

/-- A concrete similarity function: maximal for an identical description,
minimal otherwise. -/
def sim_by_description : ClaimRequest → ClaimRequest → ℚ :=
  fun a b => if a.description = b.description then 1 else 0

/-- A low-risk, high-confidence fraud-detection response. -/
def fraud_low : FraudScore :=
  { score := 1/10, risk_level := .low, confidence := 9/10 }

/-- An environment in which the policy is active, every claim scores
low-risk with high confidence, and the duplicate store is reachable. -/
def env1 : Env :=
  { policy_lookup := fun pid => if pid = pid1 then some policy1 else none,
    fraud_eval := fun _ => fraud_low,
    sim := sim_by_description,
    store_up := true }

/-- The same environment with the duplicate-index store unreachable. -/
def env_store_down : Env := { env1 with store_up := false }

/-- An empty duplicate index. -/
def store0 : DupStore := fun _ => []

/-- A concrete score vector meeting every instant-approve criterion and the
identity-graph hard-reject criterion simultaneously. -/
def conflict_scores : ScoreVector := fun n =>
  match n with
  | .behavioral_biometrics => some (1/10)
  | .device_fingerprint => some (1/10)
  | .identity_graph => some (19/20)
  | _ => none

/-- A concrete score vector with low biometrics and device scores and no
hard signals. -/
def calm_scores : ScoreVector := fun n =>
  match n with
  | .behavioral_biometrics => some (1/10)
  | .device_fingerprint => some (1/10)
  | _ => none

/-- A concrete meta-classifier (the learned weights are opaque; any
concrete function instantiates them). -/
def meta0 : List (Provider × ℚ) → ℚ := fun _ => 3/10

/-- A concrete anomaly detector reporting no anomaly. -/
def anomaly0 : List (Provider × ℚ) → Bool := fun _ => false

/-- Per-model outcomes where the video-analysis model raises and every
other model returns 3/10. -/
def results_err : Provider → Option ℚ :=
  fun p => if p = Provider.video_analysis then none else some (3/10)

/-- Per-model outcomes where the video-analysis model genuinely returns
the neutral value 1/2 and every other model returns 3/10. -/
def results_half : Provider → Option ℚ :=
  fun p => if p = Provider.video_analysis then some (1/2) else some (3/10)

/-- Genuine model scores for the monotonicity witness. -/
def m0 : Provider → ℚ := fun _ => 3/10

/-- A failure set containing only the video-analysis model. -/
def failed_one : Provider → Bool :=
  fun p => p == Provider.video_analysis

/-- A failure set containing the video-analysis and text-sentiment
models. -/
def failed_two : Provider → Bool :=
  fun p => p == Provider.video_analysis || p == Provider.text_sentiment

/-! ## Helper lemmas -/

/-- Reading a point-updated score vector. -/
lemma getScore_setScore (scores : ScoreVector) (nm n : Provider)
    (v : Option ℚ) (d : ℚ) :
    getScore (setScore scores nm v) n d =
      if n = nm then v.getD d else getScore scores n d := by
  unfold getScore setScore
  by_cases h : n = nm <;> simp [h]

/-- The scan loop of `check_duplicate_claim` finds a match exactly when
some retrieved entry has similarity exceeding 0.85. -/
lemma find_similar_isSome_iff (sim : ClaimRequest → ClaimRequest → ℚ)
    (claim : ClaimRequest) (l : List ClaimRequest) :
    (find_similar sim claim l).isSome ↔ ∃ r ∈ l, sim claim r > 85/100 := by
  induction l with
  | nil => simp [find_similar]
  | cons r rest ih =>
    by_cases h : sim claim r > 85/100
    · simp [find_similar, h]
    · simp [find_similar, h, ih]

/-- Looking a provider up in the score list the evaluate loop builds
returns its outcome, neutralised when the model raised. -/
lemma lookupScore_model_scores (results : Provider → Option ℚ) (p : Provider) :
    lookupScore (model_scores_list results) p =
      some ((results p).getD neutral_score) := by
  cases p <;> rfl

/-- Counting the non-neutral entries of a mapped score list is monotone
under pointwise preservation of non-neutrality. -/
lemma filter_neutral_mono (f g : Provider → ℚ)
    (h : ∀ p, g p ≠ neutral_score → f p ≠ neutral_score)
    (l : List Provider) :
    ((l.map (fun p => (p, g p))).filter
        (fun q => decide (q.2 ≠ neutral_score))).length ≤
    ((l.map (fun p => (p, f p))).filter
        (fun q => decide (q.2 ≠ neutral_score))).length := by
  induction l with
  | nil => simp
  | cons p rest ih =>
    simp only [List.map_cons, List.filter_cons]
    by_cases hg : g p = neutral_score
    · rw [if_neg (by simp [hg])]
      by_cases hf : f p = neutral_score
      · rw [if_neg (by simp [hf])]
        exact ih
      · rw [if_pos (by simp [hf])]
        simp only [List.length_cons]
        exact le_trans ih (Nat.le_succ _)
    · have hf := h p hg
      rw [if_pos (by simp [hg]), if_pos (by simp [hf])]
      simp only [List.length_cons]
      exact Nat.succ_le_succ ih

/-- On a submission with an active policy whose claimant already has a
similar indexed claim, the pipeline returns `flagged` with confidence 0,
leaves the store unchanged and dispatches nothing. -/
lemma submit_claim_flagged (env : Env) (store : DupStore)
    (claim : ClaimRequest) (policy : Policy)
    (hup : env.store_up = true)
    (hpol : env.policy_lookup claim.policy_id = some policy)
    (hact : policy.status = active_status)
    (h : ∃ r ∈ dup_check_read store claim.user_id, env.sim claim r > 85/100) :
    submit_claim env store claim =
      .ok ({ claim_id := claim.claim_id, status := .flagged,
             payout_amount := none, confidence_score := 0 }, store, []) := by
  obtain ⟨s, hs⟩ := Option.isSome_iff_exists.mp
    ((find_similar_isSome_iff env.sim claim _).mpr h)
  unfold submit_claim
  simp only [hpol]
  rw [if_neg (fun hne => hne hact)]
  unfold check_duplicate_claim
  rw [hup, if_neg (by decide)]
  simp only [hs]
  rw [if_pos trivial]

/-- On a submission with an active policy, no similar indexed claim, and
the instant-approval criteria met, the pipeline registers the claim,
returns `instant_approved` with the computed payout and dispatches exactly
one payout action. -/
lemma submit_claim_approves (env : Env) (store : DupStore)
    (claim : ClaimRequest) (policy : Policy)
    (hup : env.store_up = true)
    (hpol : env.policy_lookup claim.policy_id = some policy)
    (hact : policy.status = active_status)
    (h : ∀ r ∈ dup_check_read store claim.user_id, ¬ env.sim claim r > 85/100)
    (hrisk : (env.fraud_eval claim).risk_level = RiskLevel.low)
    (hamt : claim.estimated_amount < 5000)
    (hconf : (env.fraud_eval claim).confidence > 85/100)
    (htype : claim.claim_type = ClaimType.theft ∨
             claim.claim_type = ClaimType.water_damage) :
    submit_claim env store claim =
      .ok ({ claim_id := claim.claim_id, status := .instant_approved,
             payout_amount := some (calculate_payout claim policy),
             confidence_score := (env.fraud_eval claim).confidence },
           dup_insert store claim,
           [Action.process_instant_payout claim.claim_id
              (calculate_payout claim policy)]) := by
  have hnone : find_similar env.sim claim (dup_check_read store claim.user_id)
      = none := by
    rw [← Option.not_isSome_iff_eq_none, find_similar_isSome_iff]
    rintro ⟨r, hr, hsim⟩
    exact h r hr hsim
  unfold submit_claim
  simp only [hpol]
  rw [if_neg (fun hne => hne hact)]
  unfold check_duplicate_claim
  rw [hup, if_neg (by decide)]
  simp only [hnone]
  rw [if_neg (by decide), if_pos ⟨hrisk, hamt, hconf, htype⟩]

/-! ## The claims -/

/-- **C1.** As stated the claim fails: the source tests the approve branch
first (ensemble.py lines 84-88) and returns `instant_approve` without ever
reaching the reject checks, so a score vector meeting all four
instant-approve criteria together with the identity-graph hard-reject
criterion is instant-approved, not sent to review. -/
theorem C1_counterexample :
    ((1:ℚ)/10 < 15/100 ∧
     getScore conflict_scores .behavioral_biometrics 1 < 2/10 ∧
     getScore conflict_scores .device_fingerprint 1 < 3/10 ∧
     getScore conflict_scores .identity_graph 0 > 9/10) ∧
    make_decision (1/10) false conflict_scores = Decision.instant_approve ∧
    make_decision (1/10) false conflict_scores ≠ Decision.review := by
  refine ⟨⟨?_, ?_, ?_, ?_⟩, ?_, ?_⟩
  · norm_num
  · norm_num [getScore, conflict_scores]
  · norm_num [getScore, conflict_scores]
  · norm_num [getScore, conflict_scores]
  · norm_num [make_decision, getScore, conflict_scores]
  · norm_num [make_decision, getScore, conflict_scores]
    decide

/-- **C1 (amended).** For every score vector that simultaneously satisfies
the instant-approve criteria and at least one hard reject criterion, the
decision function returns `instant_approve`: the approve branch is
evaluated first and a conflicting hard reject signal does not override
it. -/
theorem C1_amended (risk : ℚ) (scores : ScoreVector)
    (h1 : risk < 15/100)
    (h2 : getScore scores .behavioral_biometrics 1 < 2/10)
    (h3 : getScore scores .device_fingerprint 1 < 3/10)
    (_h4 : getScore scores .identity_graph 0 > 9/10 ∨
          getScore scores .network_analysis 0 > 95/100) :
    make_decision risk false scores = Decision.instant_approve := by
  unfold make_decision
  rw [if_pos ⟨h1, rfl, h2, h3⟩]

/-- **C1 (witness).** The amended claim at the conflicting vector. -/
theorem C1_witness :
    ((1:ℚ)/10 < 15/100 ∧
     getScore conflict_scores .behavioral_biometrics 1 < 2/10 ∧
     getScore conflict_scores .device_fingerprint 1 < 3/10 ∧
     getScore conflict_scores .identity_graph 0 > 9/10) ∧
    make_decision (1/10) false conflict_scores = Decision.instant_approve :=
  ⟨⟨by norm_num, by norm_num [getScore, conflict_scores],
    by norm_num [getScore, conflict_scores],
    by norm_num [getScore, conflict_scores]⟩,
   C1_amended (1/10) conflict_scores (by norm_num)
     (by norm_num [getScore, conflict_scores])
     (by norm_num [getScore, conflict_scores])
     (Or.inl (by norm_num [getScore, conflict_scores]))⟩

/-- **C6.** The instant-approve risk threshold is a strict inequality: with
no anomaly and behavioral-biometrics and device-fingerprint scores below
their secondary thresholds, a risk score of exactly 0.15 is not
instant-approved, while every risk score strictly below 0.15 is. -/
theorem C6_strict_boundary (scores : ScoreVector)
    (h2 : getScore scores .behavioral_biometrics 1 < 2/10)
    (h3 : getScore scores .device_fingerprint 1 < 3/10) :
    make_decision (15/100) false scores ≠ Decision.instant_approve ∧
    ∀ risk : ℚ, risk < 15/100 →
      make_decision risk false scores = Decision.instant_approve := by
  constructor
  · unfold make_decision
    rw [if_neg]
    · split <;> decide
    · rintro ⟨hlt, -⟩
      exact absurd hlt (lt_irrefl _)
  · intro risk hr
    unfold make_decision
    rw [if_pos ⟨hr, rfl, h2, h3⟩]

/-- **C6 (witness).** The boundary at a concrete calm score vector:
exactly 0.15 is not instant-approved, 0.1 is. -/
theorem C6_witness :
    make_decision (15/100) false calm_scores ≠ Decision.instant_approve ∧
    make_decision (1/10) false calm_scores = Decision.instant_approve :=
  ⟨(C6_strict_boundary calm_scores (by norm_num [getScore, calm_scores])
      (by norm_num [getScore, calm_scores])).1,
   (C6_strict_boundary calm_scores (by norm_num [getScore, calm_scores])
      (by norm_num [getScore, calm_scores])).2 (1/10) (by norm_num)⟩

/-- **C10.** Missing provider scores are defaulted asymmetrically in
`make_decision`: a missing behavioral-biometrics or device-fingerprint
entry behaves exactly like the score 1 (and therefore blocks
`instant_approve`), while a missing identity-graph or network-analysis
entry behaves exactly like the score 0 (and therefore a reject can then
only come from the blended risk score exceeding 0.85). -/
theorem C10_missing_score_defaults (risk : ℚ) (is_anomaly : Bool)
    (scores : ScoreVector) :
    (scores .behavioral_biometrics = none →
      make_decision risk is_anomaly scores =
        make_decision risk is_anomaly
          (setScore scores .behavioral_biometrics (some 1)) ∧
      make_decision risk is_anomaly scores ≠ Decision.instant_approve) ∧
    (scores .device_fingerprint = none →
      make_decision risk is_anomaly scores =
        make_decision risk is_anomaly
          (setScore scores .device_fingerprint (some 1)) ∧
      make_decision risk is_anomaly scores ≠ Decision.instant_approve) ∧
    (scores .identity_graph = none →
      make_decision risk is_anomaly scores =
        make_decision risk is_anomaly
          (setScore scores .identity_graph (some 0))) ∧
    (scores .network_analysis = none →
      make_decision risk is_anomaly scores =
        make_decision risk is_anomaly
          (setScore scores .network_analysis (some 0))) ∧
    (scores .identity_graph = none → scores .network_analysis = none →
      make_decision risk is_anomaly scores = Decision.reject →
      risk > 85/100) := by
  refine ⟨fun hbb => ⟨?_, ?_⟩, fun hdf => ⟨?_, ?_⟩, fun hig => ?_,
    fun hna => ?_, fun hig hna hrej => ?_⟩
  · simp [make_decision, getScore, setScore, hbb]
  · unfold make_decision
    rw [if_neg]
    · split <;> decide
    · rintro ⟨-, -, hlt, -⟩
      simp only [getScore, hbb, Option.getD_none] at hlt
      norm_num at hlt
  · simp [make_decision, getScore, setScore, hdf]
  · unfold make_decision
    rw [if_neg]
    · split <;> decide
    · rintro ⟨-, -, -, hlt⟩
      simp only [getScore, hdf, Option.getD_none] at hlt
      norm_num at hlt
  · simp [make_decision, getScore, setScore, hig]
  · simp [make_decision, getScore, setScore, hna]
  · unfold make_decision at hrej
    by_cases h1 : risk < 15/100 ∧ is_anomaly = false ∧
        getScore scores .behavioral_biometrics 1 < 2/10 ∧
        getScore scores .device_fingerprint 1 < 3/10
    · rw [if_pos h1] at hrej
      exact absurd hrej (by decide)
    · rw [if_neg h1] at hrej
      by_cases h2 : risk > 85/100 ∨ getScore scores .identity_graph 0 > 9/10 ∨
          getScore scores .network_analysis 0 > 95/100
      · rcases h2 with h | h | h
        · exact h
        · exfalso
          simp only [getScore, hig, Option.getD_none] at h
          norm_num at h
        · exfalso
          simp only [getScore, hna, Option.getD_none] at h
          norm_num at h
      · rw [if_neg h2] at hrej
        exact absurd hrej (by decide)

/-- **C10 (witness).** The defaults at the empty score vector. -/
theorem C10_witness :
    empty_scores Provider.behavioral_biometrics = none ∧
    make_decision (1/10) false empty_scores ≠ Decision.instant_approve :=
  ⟨rfl, ((C10_missing_score_defaults (1/10) false empty_scores).1 rfl).2⟩

/-- **C7.** As stated the claim fails on one point: a failing provider
contributes the bare value 0.5 with no "unavailable" tag (ensemble.py line
52 assigns the plain float `0.5`), so the evaluation result of a run in
which the video-analysis model raised is identical, component by component
— score vector included — to the result of a run in which the same model
genuinely returned 0.5; nothing in the score vector marks the failure. -/
theorem C7_counterexample :
    results_err Provider.video_analysis = none ∧
    results_half Provider.video_analysis = some (1/2) ∧
    evaluate meta0 anomaly0 results_err = evaluate meta0 anomaly0 results_half := by
  refine ⟨rfl, rfl, ?_⟩
  simp [evaluate, model_scores_list, registered_models, results_err,
    results_half, neutral_score]

/-- **C7 (amended).** A provider that errors contributes the neutral score
0.5 — untagged, indistinguishable from a genuine 0.5 — to the score vector,
and the evaluation still completes over all registered providers: every
registered provider has an entry (failed ones hold exactly 0.5, successful
ones their own score), and the returned decision is the decision function
applied to that complete vector; no single provider failure aborts the
evaluation. -/
theorem C7_amended (meta : List (Provider × ℚ) → ℚ)
    (anomaly : List (Provider × ℚ) → Bool) (results : Provider → Option ℚ) :
    ((evaluate meta anomaly results).model_breakdown.length =
      registered_models.length) ∧
    (∀ p, results p = none →
      lookupScore (evaluate meta anomaly results).model_breakdown p =
        some neutral_score) ∧
    (∀ p s, results p = some s →
      lookupScore (evaluate meta anomaly results).model_breakdown p = some s) ∧
    ((evaluate meta anomaly results).decision =
      make_decision (evaluate meta anomaly results).risk_score
        (evaluate meta anomaly results).is_anomaly
        (lookupScore (evaluate meta anomaly results).model_breakdown)) := by
  refine ⟨rfl, ?_, ?_, rfl⟩
  · intro p hp
    show lookupScore (model_scores_list results) p = some neutral_score
    rw [lookupScore_model_scores, hp]
    rfl
  · intro p s hp
    show lookupScore (model_scores_list results) p = some s
    rw [lookupScore_model_scores, hp]
    rfl

/-- **C7 (witness).** The amended claim at the run where the
video-analysis model raises. -/
theorem C7_witness :
    results_err Provider.video_analysis = none ∧
    lookupScore (evaluate meta0 anomaly0 results_err).model_breakdown
      Provider.video_analysis = some neutral_score :=
  ⟨rfl, (C7_amended meta0 anomaly0 results_err).2.1 Provider.video_analysis rfl⟩

/-- **C8.** Confidence is monotonically non-increasing in the set of
unavailable providers: for two evaluations of the same claim (same genuine
per-provider scores `m`) that differ only in that the second run's failure
set extends the first's, the second reports no higher confidence.
`calculate_confidence` itself is absent from the source and is modelled
from the spec (see its doc comment). -/
theorem C8_confidence_monotone (meta : List (Provider × ℚ) → ℚ)
    (anomaly : List (Provider × ℚ) → Bool) (m : Provider → ℚ)
    (F G : Provider → Bool) (hFG : ∀ p, F p = true → G p = true) :
    (evaluate meta anomaly (apply_failures m G)).confidence ≤
    (evaluate meta anomaly (apply_failures m F)).confidence := by
  show calculate_confidence (model_scores_list (apply_failures m G)) ≤
    calculate_confidence (model_scores_list (apply_failures m F))
  have hmap : ∀ H : Provider → Bool, model_scores_list (apply_failures m H) =
      registered_models.map (fun p => (p, if H p then neutral_score else m p)) := by
    intro H
    unfold model_scores_list
    refine List.map_congr_left (fun p _ => ?_)
    by_cases hp : H p <;> simp [apply_failures, hp]
  rw [hmap F, hmap G]
  unfold calculate_confidence
  rw [List.length_map, List.length_map]
  have hlen : (0:ℚ) < (registered_models.length : ℚ) := by
    simp [registered_models]
  rw [div_le_div_iff_of_pos_right hlen]
  refine Nat.cast_le.mpr (filter_neutral_mono _ _ ?_ registered_models)
  intro p hg
  by_cases hFp : F p = true
  · have hGp := hFG p hFp
    exact absurd (by simp [hGp]) hg
  · have hGp : G p = false := by
      cases hG2 : G p
      · rfl
      · exact absurd (by simp [hG2]) hg
    simp only [Bool.not_eq_true] at hFp
    simpa [hFp] using (by simpa [hGp] using hg : m p ≠ neutral_score)

/-- **C8 (witness).** The monotonicity at a run where only video-analysis
fails against a run where video-analysis and text-sentiment fail. -/
theorem C8_witness :
    (∀ p, failed_one p = true → failed_two p = true) ∧
    (evaluate meta0 anomaly0 (apply_failures m0 failed_two)).confidence ≤
    (evaluate meta0 anomaly0 (apply_failures m0 failed_one)).confidence :=
  ⟨fun p => by cases p <;> simp [failed_one, failed_two],
   C8_confidence_monotone meta0 anomaly0 m0 failed_one failed_two
     (fun p => by cases p <;> simp [failed_one, failed_two])⟩

/-- **C4.** The duplicate check scans the claimant's non-expired index
entries: when some entry's similarity exceeds 0.85 the claim is reported as
a duplicate and the index is unchanged; otherwise it is reported as fresh
and registered in the index. The registration is part of the duplicate-check
step, before scoring: on every non-flagged successful submission the store
handed on is the one with the claim already registered, whatever the
scoring outcome. -/
theorem C4_duplicate_check (env : Env) (store : DupStore)
    (claim : ClaimRequest) :
    ((∃ r ∈ dup_check_read store claim.user_id, env.sim claim r > 85/100) →
      ∃ s, check_duplicate_claim true env.sim store claim =
        .ok ({ is_duplicate := true, similarity := some s }, store)) ∧
    ((∀ r ∈ dup_check_read store claim.user_id, ¬ env.sim claim r > 85/100) →
      check_duplicate_claim true env.sim store claim =
        .ok ({ is_duplicate := false, similarity := none },
             dup_insert store claim) ∧
      claim ∈ dup_insert store claim claim.user_id) ∧
    (∀ resp store1 acts policy, env.store_up = true →
      env.policy_lookup claim.policy_id = some policy →
      policy.status = active_status →
      submit_claim env store claim = .ok (resp, store1, acts) →
      resp.status ≠ Status.flagged →
      store1 = dup_insert store claim) := by
  refine ⟨?_, ?_, ?_⟩
  · intro h
    obtain ⟨s, hs⟩ := Option.isSome_iff_exists.mp
      ((find_similar_isSome_iff env.sim claim _).mpr h)
    refine ⟨s, ?_⟩
    unfold check_duplicate_claim
    rw [if_neg (by decide)]
    simp only [hs]
  · intro h
    have hnone : find_similar env.sim claim (dup_check_read store claim.user_id)
        = none := by
      rw [← Option.not_isSome_iff_eq_none, find_similar_isSome_iff]
      rintro ⟨r, hr, hsim⟩
      exact h r hr hsim
    constructor
    · unfold check_duplicate_claim
      rw [if_neg (by decide)]
      simp only [hnone]
    · simp [dup_insert]
  · intro resp store1 acts policy hup hpol hact hsub hflag
    unfold submit_claim at hsub
    simp only [hpol] at hsub
    rw [if_neg (fun hne => hne hact)] at hsub
    unfold check_duplicate_claim at hsub
    rw [hup, if_neg (by decide)] at hsub
    cases heq : find_similar env.sim claim (dup_check_read store claim.user_id) with
    | some s =>
      simp only [heq] at hsub
      simp at hsub
      exact absurd (by rw [← hsub.1]) hflag
    | none =>
      simp only [heq] at hsub
      simp only [Bool.false_eq_true, if_false] at hsub
      split at hsub <;>
      · simp at hsub
        exact hsub.2.1.symm

/-- **C4 (witness).** The non-duplicate branch at an empty index. -/
theorem C4_witness :
    check_duplicate_claim true env1.sim store0 claim1 =
      .ok ({ is_duplicate := false, similarity := none },
           dup_insert store0 claim1) ∧
    claim1 ∈ dup_insert store0 claim1 claim1.user_id :=
  (C4_duplicate_check env1 store0 claim1).2.1 (by simp [dup_check_read, store0])

/-- **C5.** The payout of an instantly approved claim: with the per-type
coverage limit looked up from the policy, the payout is the estimated
amount capped by the limit, minus the deductible, floored at zero — so
never negative; the two worked examples of the spec evaluate as stated. -/
theorem C5_payout_formula :
    (∀ claim policy limit,
      policy.coverage_limits claim.claim_type = some limit →
      calculate_payout claim policy =
        max (min claim.estimated_amount limit - policy.deductible) 0) ∧
    (∀ claim policy, 0 ≤ calculate_payout claim policy) ∧
    calculate_payout claim1 policy1 = 3000 ∧
    calculate_payout claim_small policy1 = 0 := by
  refine ⟨?_, ?_, ?_, ?_⟩
  · intro claim policy limit h
    simp [calculate_payout, h]
  · intro claim policy
    exact le_max_right _ _
  · norm_num [calculate_payout, claim1, policy1, min_def, max_def]
  · norm_num [calculate_payout, claim_small, claim1, policy1, min_def, max_def]

/-- **C5 (witness).** The formula at the worked example: amount 3500,
limit 5000, deductible 500. -/
theorem C5_witness :
    policy1.coverage_limits claim1.claim_type = some 5000 ∧
    calculate_payout claim1 policy1 =
      max (min claim1.estimated_amount 5000 - policy1.deductible) 0 :=
  ⟨rfl, C5_payout_formula.1 claim1 policy1 5000 rfl⟩

/-- **C3.** As stated the claim fails: no line of `check_duplicate_claim`
or `submit_claim` handles a store failure, so with the duplicate-index
store unreachable the submission of an otherwise valid claim surfaces the
unhandled store exception as a server error — the claim is not routed to
review and the client does see an error. -/
theorem C3_counterexample :
    submit_claim env_store_down store0 claim1 =
      Except.error PipelineError.server_error := by
  norm_num [submit_claim, check_duplicate_claim, env_store_down, env1,
    claim1, policy1, active_status]

/-- **C3 (amended).** When the duplicate-index backing store is unreachable
during the submission of a claim with an active policy, the pipeline does
not skip the duplicate check — the claim is never scored or approved — but
it does not route the claim to review either: the unhandled store exception
propagates and the submission fails with a server error. -/
theorem C3_amended (env : Env) (store : DupStore) (claim : ClaimRequest)
    (policy : Policy) (hdown : env.store_up = false)
    (hpol : env.policy_lookup claim.policy_id = some policy)
    (hact : policy.status = active_status) :
    submit_claim env store claim = Except.error PipelineError.server_error := by
  unfold submit_claim
  simp only [hpol]
  rw [if_neg (fun hne => hne hact)]
  unfold check_duplicate_claim
  rw [hdown]
  simp

/-- **C3 (witness).** The amended claim at the concrete environment with
the store down. -/
theorem C3_witness :
    env_store_down.store_up = false ∧
    submit_claim env_store_down store0 claim1 =
      Except.error PipelineError.server_error :=
  ⟨rfl, C3_amended env_store_down store0 claim1 policy1 rfl
    (by simp [env_store_down, env1, claim1, pid1]) rfl⟩

/-- **C2.** As stated the claim fails: the pipeline has no idempotency
ledger keyed by the claim identifier. A client retry of the same claim
identifier with a slightly reworded description falls below the fuzzy
similarity threshold, is re-scored from scratch, and dispatches a second
payout initiation for the same claim identifier — here two
`process_instant_payout` actions for the identifier of `claim1`. -/
theorem C2_counterexample :
    claim1_retry.claim_id = claim1.claim_id ∧
    run_two env1 store0 claim1 claim1_retry =
      Except.ok
        ({ claim_id := cid1, status := .instant_approved,
           payout_amount := some 3000, confidence_score := 9/10 },
         { claim_id := cid1, status := .instant_approved,
           payout_amount := some 3000, confidence_score := 9/10 },
         [Action.process_instant_payout cid1 3000,
          Action.process_instant_payout cid1 3000]) := by
  refine ⟨rfl, ?_⟩
  have hpol1 : env1.policy_lookup claim1.policy_id = some policy1 := by
    simp [env1, claim1]
  have hpol2 : env1.policy_lookup claim1_retry.policy_id = some policy1 := by
    simp [env1, claim1_retry, claim1]
  have hfresh2 : ∀ r ∈ dup_check_read (dup_insert store0 claim1)
      claim1_retry.user_id, ¬ env1.sim claim1_retry r > 85/100 := by
    intro r hr
    have hr1 : r = claim1 := by
      simpa [dup_check_read, dup_insert, store0, claim1_retry, claim1] using hr
    subst hr1
    have hd : env1.sim claim1_retry claim1 = 0 := by
      show sim_by_description claim1_retry claim1 = 0
      unfold sim_by_description
      rw [if_neg (by decide)]
    rw [hd]
    norm_num
  have h1 := submit_claim_approves env1 store0 claim1 policy1 rfl hpol1 rfl
    (by simp [dup_check_read, store0]) rfl (by norm_num [claim1])
    (by norm_num [env1, fraud_low]) (Or.inr rfl)
  have h2 := submit_claim_approves env1 (dup_insert store0 claim1)
    claim1_retry policy1 rfl hpol2 rfl hfresh2 rfl
    (by norm_num [claim1_retry, claim1]) (by norm_num [env1, fraud_low])
    (Or.inr rfl)
  unfold run_two
  simp only [h1, h2]
  norm_num [calculate_payout, claim1, claim1_retry, policy1, env1, fraud_low,
    min_def, max_def]

/-- **C2 (amended).** A second submission with the same claim identifier is
never replayed from a stored outcome — no such store exists. It is
re-processed from scratch: when its similarity to some indexed claim of the
claimant exceeds 0.85 it returns `flagged` with confidence 0 and dispatches
nothing (an outcome unrelated to whatever the first submission returned);
when no indexed claim is similar, scoring re-runs, and if the approval
criteria hold a payout action is dispatched again for that same
identifier. -/
theorem C2_amended (env : Env) (store : DupStore) (claim : ClaimRequest)
    (policy : Policy)
    (hup : env.store_up = true)
    (hpol : env.policy_lookup claim.policy_id = some policy)
    (hact : policy.status = active_status) :
    ((∃ r ∈ store claim.user_id, env.sim claim r > 85/100) →
      submit_claim env store claim =
        .ok ({ claim_id := claim.claim_id, status := .flagged,
               payout_amount := none, confidence_score := 0 }, store, [])) ∧
    ((∀ r ∈ store claim.user_id, ¬ env.sim claim r > 85/100) →
      (env.fraud_eval claim).risk_level = RiskLevel.low →
      claim.estimated_amount < 5000 →
      (env.fraud_eval claim).confidence > 85/100 →
      (claim.claim_type = ClaimType.theft ∨
       claim.claim_type = ClaimType.water_damage) →
      submit_claim env store claim =
        .ok ({ claim_id := claim.claim_id, status := .instant_approved,
               payout_amount := some (calculate_payout claim policy),
               confidence_score := (env.fraud_eval claim).confidence },
             dup_insert store claim,
             [Action.process_instant_payout claim.claim_id
                (calculate_payout claim policy)])) :=
  ⟨fun h => submit_claim_flagged env store claim policy hup hpol hact h,
   fun h hrisk hamt hconf htype =>
     submit_claim_approves env store claim policy hup hpol hact h
       hrisk hamt hconf htype⟩

/-- **C2 (witness).** The flagged branch of the amended claim: resubmitting
the same incident (identical description, fresh claim id) after the first
submission was registered yields `flagged` with no action, not the first
submission's outcome. -/
theorem C2_witness :
    submit_claim env1 (dup_insert store0 claim1) claim_dup =
      Except.ok
        ({ claim_id := cid2, status := .flagged,
           payout_amount := none, confidence_score := 0 },
         dup_insert store0 claim1, []) :=
  (C2_amended env1 (dup_insert store0 claim1) claim_dup policy1 rfl
      (by simp [env1, claim_dup, claim1]) rfl).1
    ⟨claim1, by simp [dup_insert, store0, claim_dup, claim1],
     by norm_num [env1, sim_by_description, claim_dup, claim1]⟩

/-- **C9.** As stated the claim fails: the duplicate check's read
(`smembers`, app.py line 156) and its insert (`sadd`, app.py line 165) are
two separate, unsynchronised store operations, not one atomic
check-and-insert. Under the admissible interleaving in which both reads
precede both writes, two concurrent submissions of the same incident from
the same claimant — mutual similarity 1 > 0.85 — are both reported as
original (`is_duplicate = false` for both), contradicting "never both as
original". -/
theorem C9_counterexample :
    claim_dup.user_id = claim1.user_id ∧
    sim_by_description claim_dup claim1 > 85/100 ∧
    (interleaved_rrww sim_by_description store0 claim1 claim_dup).1 =
      (false, false) := by
  refine ⟨rfl, ?_, ?_⟩
  · norm_num [sim_by_description, claim_dup, claim1]
  · simp [interleaved_rrww, dup_check_read, find_similar, store0]

/-- **C9 (amended).** The duplicate check and the insertion are two
separate store operations with no lock: for two concurrent submissions from
the same claimant against an index holding no prior entry for them, the
read-read-write-write interleaving reports both as original — however
similar they are — while only the serialized schedule (first submission's
write before the second's read) flags the second as a duplicate when their
similarity exceeds 0.85. -/
theorem C9_amended (sim : ClaimRequest → ClaimRequest → ℚ) (store : DupStore)
    (c1 c2 : ClaimRequest)
    (huser : c2.user_id = c1.user_id)
    (hempty : store c1.user_id = []) :
    (interleaved_rrww sim store c1 c2).1 = (false, false) ∧
    (sim c2 c1 > 85/100 →
      (sequential_runs sim store c1 c2).1 = (false, true)) := by
  constructor
  · simp [interleaved_rrww, dup_check_read, huser, hempty, find_similar]
  · intro hsim
    simp [sequential_runs, dup_check_read, dup_insert, huser, hempty,
      find_similar, hsim]

/-- **C9 (witness).** The amended claim at the concrete racing pair. -/
theorem C9_witness :
    (interleaved_rrww sim_by_description store0 claim1 claim_dup).1 =
      (false, false) ∧
    (sequential_runs sim_by_description store0 claim1 claim_dup).1 =
      (false, true) :=
  ⟨(C9_amended sim_by_description store0 claim1 claim_dup rfl rfl).1,
   (C9_amended sim_by_description store0 claim1 claim_dup rfl rfl).2
     (by norm_num [sim_by_description, claim_dup, claim1])⟩

end LemonadePlatform








